import Mathlib

/-!
Verification development for the `resource-backend` service (`src/main.go`).

The service exposes `POST /start-container` (`StartContainerHandler`), which
decodes a JSON body into `StartContainerRequest`, queries a host snapshot
(`cpu.Counts`, `mem.VirtualMemory().Available`, `disk.Usage("/").Free`),
parses the three numeric fields with `strconv.Atoi`, runs an admission
comparison, and then writes a Dockerfile, builds an image, writes a compose
file rendered from a fixed template, and runs `docker-compose up -d`.

The embedding below is shallow: pure string/integer computations are
translated directly; the results of the external calls (metrics queries,
file writes, `docker build`, `docker-compose up`) are supplied by a `World`
record, and the handler is a pure function from the decoded request and the
world to the ordered list of external effects it performs plus the HTTP
outcome it writes.
-/

/-- The four string fields of the JSON body, as in `StartContainerRequest`
in `src/main.go` (fields `cpus`, `memory`, `storage`, `port`, all `string`). -/
structure StartContainerRequest where
  cpus : String
  memory : String
  storage : String
  port : String
deriving DecidableEq

/-- Digit accumulation for decimal parsing: processes the characters left to
right, failing on any non-digit (as `strconv.Atoi` does on a syntax error). -/
def digitsAux : List Char → Nat → Option Nat
  | [], acc => some acc
  | c :: cs, acc =>
      if c.isDigit then digitsAux cs (acc * 10 + (c.toNat - Char.toNat (Char.ofNat 48)))
      else none

/-- Value of a nonempty all-digit character list, `none` otherwise. -/
def digitsVal? : List Char → Option Nat
  | [] => none
  | c :: cs => digitsAux (c :: cs) 0

/-- Shallow embedding of Go `strconv.Atoi` on a 64-bit platform: an optional
leading `+` or `-` sign followed by one or more ASCII digits; any other
shape is a syntax error, and a value outside the `int64` range
`[-2^63, 2^63-1]` is a range error.  The handler treats every non-nil error
identically (HTTP 400), so both error kinds are modelled as `none`.
Note that negative integer strings such as `"-1"` parse successfully. -/
def atoi? (s : String) : Option Int :=
  match s.data with
  | [] => none
  | c :: rest =>
      if c = Char.ofNat 45 then
        match digitsVal? rest with
        | none => none
        | some n => if n ≤ 9223372036854775808 then some (-(n : Int)) else none
      else if c = Char.ofNat 43 then
        match digitsVal? rest with
        | none => none
        | some n => if n ≤ 9223372036854775807 then some (n : Int) else none
      else
        match digitsVal? (c :: rest) with
        | none => none
        | some n => if n ≤ 9223372036854775807 then some (n : Int) else none

/-- Go's conversion pipeline `uint64(x)` applied to a (possibly overflowed)
signed 64-bit product: signed wrap-around to `[-2^63, 2^63)` followed by
unsigned reinterpretation is exactly reduction modulo `2^64`. -/
def wrap64 (x : Int) : Nat :=
  (x % (18446744073709551616 : Int)).toNat

/-- The admission comparison of `StartContainerHandler` (line 151 of
`src/main.go`): `requiredCPUs > cpuCount || uint64(requiredMemory*1024*1024)
> virtMem.Available || uint64(requiredStorage*1024*1024) > diskUsage.Free`.
`cpuCount` is a Go `int`; the memory/storage products are computed in
64-bit signed arithmetic and reinterpreted as `uint64` (`wrap64`), then
compared with the `uint64` snapshot fields.  Returns `true` when the
request is rejected. -/
def admissionReject (requiredCPUs requiredMemory requiredStorage cpuCount : Int)
    (memAvailable diskFree : Nat) : Bool :=
  decide (requiredCPUs > cpuCount) ||
  decide (wrap64 (requiredMemory * 1024 * 1024) > memAvailable) ||
  decide (wrap64 (requiredStorage * 1024 * 1024) > diskFree)

/-- The static Dockerfile text written by `createDockerfile` in
`src/main.go` (verbatim content of the Go raw-string literal). -/
def dockerfileText : String :=
  "\n# Use the official Debian image as the base image\nFROM debian:latest\n\n# Install SSH server\nRUN apt-get update && \\\n    apt-get install -y openssh-server && \\\n    mkdir /var/run/sshd && \\\n    echo \x27root:password\x27 | chpasswd && \\\n    sed -i \x27s/PermitRootLogin prohibit-password/PermitRootLogin yes/\x27 /etc/ssh/sshd_config && \\\n    sed -i \x27s/#PasswordAuthentication yes/PasswordAuthentication yes/\x27 /etc/ssh/sshd_config && \\\n    echo \x27ClientAliveInterval 60\x27 >> /etc/ssh/sshd_config && \\\n    echo \x27ClientAliveCountMax 5\x27 >> /etc/ssh/sshd_config\n\n# Expose SSH port\nEXPOSE 22\n\n# Start SSH service\nCMD [\"/usr/sbin/sshd\", \"-D\"]\n"

/-- Fixed fragment of the compose template before the cpus value. -/
def composeP1 : String :=
  "\nversion: \x273.7\x27\n\nservices:\n  debian-ssh:\n    image: debian-ssh\n    deploy:\n      resources:\n        limits:\n          "

/-- Fixed fragment of the compose template between the cpus and memory values. -/
def composeP2 : String := "\n          "

/-- Fixed fragment of the compose template between the memory value and the port mapping. -/
def composeP3 : String := "\n    ports:\n      - "

/-- Fixed fragment of the compose template between the port mapping and the storage size. -/
def composeP4 : String := "\n    storage_opt:\n      "

/-- The compose text produced by `createDockerComposeFile` in `src/main.go`:
the fixed Go `text/template` source with the four actions `.CPUS`,
`.MEMORY`, `.STORAGE`, `.PORT` replaced by the request's string fields
(template execution on this static template performs exactly this textual
substitution and cannot fail).  The concatenation below is byte-identical
to that output; see `composeText_concrete` for the fully evaluated form. -/
def composeText (c m s p : String) : String :=
  composeP1 ++ "cpus: \"" ++ c ++ "\"" ++ composeP2 ++ "memory: \"" ++ m ++ "M\"" ++
  composeP3 ++ "\"" ++ p ++ ":22" ++ "\"" ++ composeP4 ++ "size: \"" ++ s ++ "M\"" ++ "\n"

/-- Observable external effects of one `StartContainerHandler` call, in
program order: the three snapshot queries, the Dockerfile write, the
`docker build` invocation, the compose-file write (with the rendered
content), and the `docker-compose up -d` invocation. -/
inductive Event where
  | queryCPU
  | queryMem
  | queryDisk
  | writeDockerfile (content : String)
  | runBuild
  | writeCompose (content : String)
  | runUp
deriving DecidableEq

/-- Results of the external calls a single request can make: the three
metrics queries (`cpu.Counts(true)`, `mem.VirtualMemory().Available`,
`disk.Usage("/").Free`), the two file writes, the build, and the up step.
`buildErr` is the `error` returned by `cmd.Run()` for `docker build`
(its message, e.g. `"exit status 1"`); `buildStreamed` is what the build
subprocess wrote to stdout/stderr, which the code streams to the server's
own standard streams and never captures.  `upOutput` is the combined
stdout+stderr of `docker-compose up -d`, captured into one buffer
regardless of exit status; `upFails` says whether that command exited
non-zero. -/
structure World where
  cpuRes : Except String Int
  memRes : Except String Nat
  diskRes : Except String Nat
  dockerfileErr : Option String
  buildErr : Option String
  buildStreamed : String
  composeWriteErr : Option String
  upOutput : String
  upFails : Bool

/-- HTTP outcome written by the handler: `http.Error` with a status code and
plain-text body, or the JSON success envelope (Content-Type, `status`
field, and the three `data` fields `docker_compose_output`, `ssh_url`,
`password`). -/
inductive HttpOutcome where
  | httpError (code : Nat) (body : String)
  | jsonSuccess (contentType status output sshUrl password : String)
deriving DecidableEq

/-- Shallow embedding of `StartContainerHandler` (`src/main.go` lines
108-198), line by line: JSON decode (its result is the `decoded` argument),
then the three metrics queries, then `strconv.Atoi` on cpus, memory,
storage, then the admission comparison, then Dockerfile write, build,
compose write, and up.  Returns the ordered effect list together with the
HTTP outcome. -/
def StartContainerHandler (decoded : Except String StartContainerRequest) (w : World) :
    List Event × HttpOutcome :=
  match decoded with
  | .error e => ([], .httpError 400 e)
  | .ok req =>
    match w.cpuRes with
    | .error e => ([.queryCPU], .httpError 500 e)
    | .ok cpuCount =>
    match w.memRes with
    | .error e => ([.queryCPU, .queryMem], .httpError 500 e)
    | .ok memAvailable =>
    match w.diskRes with
    | .error e => ([.queryCPU, .queryMem, .queryDisk], .httpError 500 e)
    | .ok diskFree =>
    match atoi? req.cpus with
    | none => ([.queryCPU, .queryMem, .queryDisk], .httpError 400 "Invalid CPU value")
    | some requiredCPUs =>
    match atoi? req.memory with
    | none => ([.queryCPU, .queryMem, .queryDisk], .httpError 400 "Invalid Memory value")
    | some requiredMemory =>
    match atoi? req.storage with
    | none => ([.queryCPU, .queryMem, .queryDisk], .httpError 400 "Invalid Storage value")
    | some requiredStorage =>
    if admissionReject requiredCPUs requiredMemory requiredStorage cpuCount memAvailable diskFree then
      ([.queryCPU, .queryMem, .queryDisk], .httpError 403 "Insufficient resources")
    else
      match w.dockerfileErr with
      | some e =>
          ([.queryCPU, .queryMem, .queryDisk, .writeDockerfile dockerfileText],
           .httpError 500 e)
      | none =>
      match w.buildErr with
      | some e =>
          ([.queryCPU, .queryMem, .queryDisk, .writeDockerfile dockerfileText, .runBuild],
           .httpError 500 e)
      | none =>
      match w.composeWriteErr with
      | some e =>
          ([.queryCPU, .queryMem, .queryDisk, .writeDockerfile dockerfileText, .runBuild,
            .writeCompose (composeText req.cpus req.memory req.storage req.port)],
           .httpError 500 e)
      | none =>
      if w.upFails then
        ([.queryCPU, .queryMem, .queryDisk, .writeDockerfile dockerfileText, .runBuild,
          .writeCompose (composeText req.cpus req.memory req.storage req.port), .runUp],
         .httpError 500 w.upOutput)
      else
        ([.queryCPU, .queryMem, .queryDisk, .writeDockerfile dockerfileText, .runBuild,
          .writeCompose (composeText req.cpus req.memory req.storage req.port), .runUp],
         .jsonSuccess "application/json" "success" w.upOutput
           ("ssh root@localhost -p " ++ req.port) "password")

/-- HTTP status code of an outcome (success responses carry 200). -/
def statusOf : HttpOutcome → Nat
  | .httpError code _ => code
  | .jsonSuccess _ _ _ _ _ => 200

/-- The `ssh_url` data field of a success outcome, if any. -/
def sshUrlOf : HttpOutcome → Option String
  | .httpError _ _ => none
  | .jsonSuccess _ _ _ u _ => some u

/-- `pat` occurs verbatim (as a contiguous substring) in `s`. -/
def containsSub (s pat : String) : Prop :=
  ∃ a b, s = a ++ pat ++ b

/-- A world in which every external call succeeds: 4 logical CPUs,
8 GB available memory, 100 GB free disk, all writes and commands ok. -/
def wOk : World :=
  ⟨.ok 4, .ok 8000000000, .ok 100000000000, none, none, "", none, "up output", false⟩

/-- Sanity anchor: the rendered compose text at the spec's concrete example
request, fully evaluated. -/
theorem composeText_concrete :
    composeText "2" "512" "1024" "2222" =
    "\nversion: \x273.7\x27\n\nservices:\n  debian-ssh:\n    image: debian-ssh\n    deploy:\n      resources:\n        limits:\n          cpus: \"2\"\n          memory: \"512M\"\n    ports:\n      - \"2222:22\"\n    storage_opt:\n      size: \"1024M\"\n" := rfl

/-- Sanity anchor: `atoi?` on a few concrete strings. -/
theorem atoi_concrete :
    atoi? "8" = some 8 ∧ atoi? "-1" = some (-1) ∧ atoi? "abc" = none ∧
    atoi? "" = none ∧ atoi? "+17" = some 17 ∧ atoi? "12x" = none := by
  refine ⟨rfl, rfl, rfl, rfl, rfl, rfl⟩

/-- When the 64-bit product does not overflow, `wrap64` is the identity. -/
theorem wrap64_gt_iff (x : Int) (n : Nat) (h0 : 0 ≤ x) (h1 : x < 18446744073709551616) :
    wrap64 x > n ↔ x > (n : Int) := by
  unfold wrap64
  rw [Int.emod_eq_of_lt h0 h1]
  exact Int.lt_toNat

/-- C1 (amended): restricted to requests whose memory and storage byte
products fit in the unsigned 64-bit range (no wrap-around), the admission
check rejects exactly when `cpus > availableCPUs`, or
`memoryMB*1024*1024 > availableMemoryBytes`, or
`storageMB*1024*1024 > availableDiskBytes`; in particular equality in all
three dimensions is accepted.  Without the no-overflow restriction the
stated iff fails (see the counterexample and C9). -/
theorem C1_admission_iff_no_overflow (rc rm rs cc : Int) (ma da : Nat)
    (hm0 : 0 ≤ rm * 1024 * 1024) (hm1 : rm * 1024 * 1024 < 18446744073709551616)
    (hs0 : 0 ≤ rs * 1024 * 1024) (hs1 : rs * 1024 * 1024 < 18446744073709551616) :
    (admissionReject rc rm rs cc ma da = true ↔
      (rc > cc ∨ rm * 1024 * 1024 > (ma : Int) ∨ rs * 1024 * 1024 > (da : Int))) ∧
    (rc = cc → rm * 1024 * 1024 = (ma : Int) → rs * 1024 * 1024 = (da : Int) →
      admissionReject rc rm rs cc ma da = false) := by
  constructor
  · simp [admissionReject, wrap64_gt_iff _ _ hm0 hm1, wrap64_gt_iff _ _ hs0 hs1, or_assoc]
  · intro h1 h2 h3
    have hma : wrap64 (rm * 1024 * 1024) = ma := by
      unfold wrap64
      rw [Int.emod_eq_of_lt hm0 hm1, h2, Int.toNat_natCast]
    have hda : wrap64 (rs * 1024 * 1024) = da := by
      unfold wrap64
      rw [Int.emod_eq_of_lt hs0 hs1, h3, Int.toNat_natCast]
    simp [admissionReject, h1, hma, hda]

/-- Witness for C1 at the spec's accept example: request
{cpus:2, memory:512, storage:1024} against snapshot
{cpus:4, memBytes:8000000000, diskBytes:100000000000}. -/
theorem C1_admission_iff_no_overflow_witness :
    (admissionReject 2 512 1024 4 8000000000 100000000000 = true ↔
      ((2 : Int) > 4 ∨ (512 : Int) * 1024 * 1024 > ((8000000000 : Nat) : Int) ∨
        (1024 : Int) * 1024 * 1024 > ((100000000000 : Nat) : Int))) ∧
    ((2 : Int) = 4 → (512 : Int) * 1024 * 1024 = ((8000000000 : Nat) : Int) →
      (1024 : Int) * 1024 * 1024 = ((100000000000 : Nat) : Int) →
      admissionReject 2 512 1024 4 8000000000 100000000000 = false) :=
  C1_admission_iff_no_overflow 2 512 1024 4 8000000000 100000000000
    (by decide) (by decide) (by decide) (by decide)

/-- Counterexample to C1 as stated: with memoryMB = 2^44 the requested
bytes (2^64) mathematically exceed the available 8 GB, so the claimed iff
demands Reject, but the admission check computes the product in wrapping
64-bit arithmetic (2^44 * 2^20 wraps to 0) and Accepts. -/
theorem C1_counterexample :
    admissionReject 1 17592186044416 1 4 8000000000 100000000000 = false ∧
    (17592186044416 : Int) * 1024 * 1024 > ((8000000000 : Nat) : Int) := by
  constructor
  · decide
  · decide

/-- C9: the admission comparison for memory and storage is the 64-bit
product reduced modulo 2^64 (signed wrap then unsigned reinterpretation),
and consequently a request of memoryMB = 2^44 — whose true byte count 2^64
far exceeds the 8 GB snapshot — wraps to 0 and is Accepted. -/
theorem C9_admission_wraps_mod_2_64 :
    (∀ x : Int, (wrap64 x : Int) = x % 18446744073709551616) ∧
    admissionReject 1 17592186044416 2 8 8000000000 100000000000 = false ∧
    ((17592186044416 : Int) * 1024 * 1024) % 18446744073709551616 = 0 ∧
    (17592186044416 : Int) * 1024 * 1024 > ((8000000000 : Nat) : Int) := by
  refine ⟨fun x => ?_, by decide, by decide, by decide⟩
  exact Int.toNat_of_nonneg (Int.emod_nonneg x (by decide))

/-- Counterexample to C2 as stated: with a malformed cpus field `"abc"` the
handler does answer 400, but only after invoking the Metrics Provider —
the effect trace contains all three snapshot queries, contradicting
"never invokes the Metrics Provider" and the ParseRequest-before-
QuerySnapshot ordering. -/
theorem C2_counterexample :
    StartContainerHandler (.ok ⟨"abc", "1", "1", "2222"⟩) wOk =
      ([.queryCPU, .queryMem, .queryDisk], .httpError 400 "Invalid CPU value") ∧
    Event.queryCPU ∈ (StartContainerHandler (.ok ⟨"abc", "1", "1", "2222"⟩) wOk).1 := by
  exact ⟨rfl, by decide⟩

/-- C2 (amended): when the body decodes but some numeric field fails
`strconv.Atoi`, the handler responds 400 and never reaches the Provisioner
(no file write, no build, no up appears in the effect trace) — but the
Metrics Provider is invoked first: the code queries all three snapshot
values before validating the numeric fields, so the trace is exactly the
three queries. -/
theorem C2_bad_numeric_field_400_after_metrics (req : StartContainerRequest) (w : World)
    (cc : Int) (ma da : Nat)
    (h1 : w.cpuRes = .ok cc) (h2 : w.memRes = .ok ma) (h3 : w.diskRes = .ok da)
    (hbad : atoi? req.cpus = none ∨ atoi? req.memory = none ∨ atoi? req.storage = none) :
    StartContainerHandler (.ok req) w =
      ([.queryCPU, .queryMem, .queryDisk], .httpError 400 "Invalid CPU value") ∨
    StartContainerHandler (.ok req) w =
      ([.queryCPU, .queryMem, .queryDisk], .httpError 400 "Invalid Memory value") ∨
    StartContainerHandler (.ok req) w =
      ([.queryCPU, .queryMem, .queryDisk], .httpError 400 "Invalid Storage value") := by
  rcases hbad with hb | hb | hb
  · exact Or.inl (by simp [StartContainerHandler, h1, h2, h3, hb])
  · rcases hc : atoi? req.cpus with _ | rc
    · exact Or.inl (by simp [StartContainerHandler, h1, h2, h3, hc])
    · exact Or.inr (Or.inl (by simp [StartContainerHandler, h1, h2, h3, hc, hb]))
  · rcases hc : atoi? req.cpus with _ | rc
    · exact Or.inl (by simp [StartContainerHandler, h1, h2, h3, hc])
    · rcases hm : atoi? req.memory with _ | rm
      · exact Or.inr (Or.inl (by simp [StartContainerHandler, h1, h2, h3, hc, hm]))
      · exact Or.inr (Or.inr (by simp [StartContainerHandler, h1, h2, h3, hc, hm, hb]))

/-- Witness for C2 at a request whose memory field is non-numeric. -/
theorem C2_bad_numeric_field_witness :
    StartContainerHandler (.ok ⟨"1", "xyz", "1", "2222"⟩) wOk =
      ([.queryCPU, .queryMem, .queryDisk], .httpError 400 "Invalid CPU value") ∨
    StartContainerHandler (.ok ⟨"1", "xyz", "1", "2222"⟩) wOk =
      ([.queryCPU, .queryMem, .queryDisk], .httpError 400 "Invalid Memory value") ∨
    StartContainerHandler (.ok ⟨"1", "xyz", "1", "2222"⟩) wOk =
      ([.queryCPU, .queryMem, .queryDisk], .httpError 400 "Invalid Storage value") :=
  C2_bad_numeric_field_400_after_metrics ⟨"1", "xyz", "1", "2222"⟩ wOk
    4 8000000000 100000000000 rfl rfl rfl (Or.inr (Or.inl rfl))

/-- C3: a rejected request produces exactly the 403 response with body
"Insufficient resources", and its effect trace is exactly the three
read-only snapshot queries — no Dockerfile write, no compose write, no
build, no up: rejection is side-effect-free. -/
theorem C3_reject_pure_403 (req : StartContainerRequest) (w : World)
    (cc rc rm rs : Int) (ma da : Nat)
    (h1 : w.cpuRes = .ok cc) (h2 : w.memRes = .ok ma) (h3 : w.diskRes = .ok da)
    (hc : atoi? req.cpus = some rc) (hm : atoi? req.memory = some rm)
    (hs : atoi? req.storage = some rs)
    (hrej : admissionReject rc rm rs cc ma da = true) :
    StartContainerHandler (.ok req) w =
      ([.queryCPU, .queryMem, .queryDisk], .httpError 403 "Insufficient resources") := by
  simp [StartContainerHandler, h1, h2, h3, hc, hm, hs, hrej]

/-- Witness for C3 at the spec's reject example: request
{cpus:8, memory:100, storage:100, port:"2222"} against snapshot
{cpus:4, memBytes:8000000000, diskBytes:100000000000}. -/
theorem C3_reject_pure_403_witness :
    StartContainerHandler (.ok ⟨"8", "100", "100", "2222"⟩) wOk =
      ([.queryCPU, .queryMem, .queryDisk], .httpError 403 "Insufficient resources") :=
  C3_reject_pure_403 ⟨"8", "100", "100", "2222"⟩ wOk 4 8 100 100 8000000000 100000000000
    rfl rfl rfl rfl rfl rfl (by decide)

/-- Counterexample to C4 as stated: `strconv.Atoi` accepts the negative
integer string `"-1"`, so a request with memory `"-1"` is not rejected at
parse time with 400; it proceeds to admission, where the wrapped unsigned
product (2^64 - 2^20) exceeds the 8 GB snapshot and yields 403. -/
theorem C4_counterexample :
    atoi? "-1" = some (-1) ∧
    StartContainerHandler (.ok ⟨"1", "-1", "1", "2222"⟩) wOk =
      ([.queryCPU, .queryMem, .queryDisk], .httpError 403 "Insufficient resources") ∧
    statusOf (StartContainerHandler (.ok ⟨"1", "-1", "1", "2222"⟩) wOk).2 ≠ 400 := by
  exact ⟨rfl, rfl, by decide⟩

/-- C4 (amended): parsing fails (400) only when a field is not a valid
*signed* integer string in the `int64` range — negative strings such as
`"-1"` construct successfully.  A negative memory value is then rejected
by the admission check (403, via the unsigned wrap-around of its byte
product), not by parsing, whenever the available memory is below
2^64 - 2^20 bytes (always true of a real host). -/
theorem C4_negative_parses_then_403 (c s p : String) (w : World)
    (cc rc rs : Int) (ma da : Nat)
    (h1 : w.cpuRes = .ok cc) (h2 : w.memRes = .ok ma) (h3 : w.diskRes = .ok da)
    (hc : atoi? c = some rc) (hs : atoi? s = some rs)
    (hma : ma < 18446744073709551616 - 1048576) :
    atoi? "-1" = some (-1) ∧
    StartContainerHandler (.ok ⟨c, "-1", s, p⟩) w =
      ([.queryCPU, .queryMem, .queryDisk], .httpError 403 "Insufficient resources") := by
  refine ⟨rfl, ?_⟩
  have hrej : admissionReject rc (-1) rs cc ma da = true := by
    have hw : wrap64 (-1048576) = 18446744073708503040 := by decide
    simp [admissionReject, hw]
    omega
  simp [StartContainerHandler, h1, h2, h3, hc, hs, hrej,
    show atoi? "-1" = some (-1) from rfl]

/-- Witness for C4 at a concrete accept-range request with memory "-1". -/
theorem C4_negative_parses_then_403_witness :
    atoi? "-1" = some (-1) ∧
    StartContainerHandler (.ok ⟨"2", "-1", "3", "2223"⟩) wOk =
      ([.queryCPU, .queryMem, .queryDisk], .httpError 403 "Insufficient resources") :=
  C4_negative_parses_then_403 "2" "3" "2223" wOk 4 2 3 8000000000 100000000000
    rfl rfl rfl rfl rfl (by decide)

/-- A world identical to `wOk` except that `docker build` exits non-zero:
`cmd.Run()` returns the error "exit status 1" while the subprocess's
diagnostic output goes to the server's own streams (`buildStreamed`). -/
def wBuildFail : World :=
  ⟨.ok 4, .ok 8000000000, .ok 100000000000, none, some "exit status 1",
   "Step 3/4: apt-get update failed", none, "", false⟩

/-- Counterexample to C5 as stated: when the build exits non-zero the up
step is indeed never invoked, but the 500 body is the Go error string of
`cmd.Run()` ("exit status 1"), not the runtime's diagnostic text — the
build's stdout/stderr is streamed to the server's own standard streams and
never captured, so the body differs from the runtime output. -/
theorem C5_counterexample :
    StartContainerHandler (.ok ⟨"1", "1", "1", "2222"⟩) wBuildFail =
      ([.queryCPU, .queryMem, .queryDisk, .writeDockerfile dockerfileText, .runBuild],
       .httpError 500 "exit status 1") ∧
    wBuildFail.buildStreamed ≠ "exit status 1" := by
  exact ⟨rfl, by decide⟩

/-- C5 (amended): if the build step exits non-zero, the compose file is
never written and `docker-compose up` is never invoked (the effect trace
ends at `runBuild`), and the handler responds 500 — with the build
command's error message (e.g. "exit status 1") as body, not with captured
runtime output, which the code streams to its own stdout/stderr. -/
theorem C5_build_failure_stops_pipeline (req : StartContainerRequest) (w : World)
    (cc rc rm rs : Int) (ma da : Nat) (e : String)
    (h1 : w.cpuRes = .ok cc) (h2 : w.memRes = .ok ma) (h3 : w.diskRes = .ok da)
    (hc : atoi? req.cpus = some rc) (hm : atoi? req.memory = some rm)
    (hs : atoi? req.storage = some rs)
    (hadm : admissionReject rc rm rs cc ma da = false)
    (hdf : w.dockerfileErr = none) (hb : w.buildErr = some e) :
    StartContainerHandler (.ok req) w =
      ([.queryCPU, .queryMem, .queryDisk, .writeDockerfile dockerfileText, .runBuild],
       .httpError 500 e) := by
  simp [StartContainerHandler, h1, h2, h3, hc, hm, hs, hadm, hdf, hb]

/-- Witness for C5 at a concrete admitted request in `wBuildFail`. -/
theorem C5_build_failure_stops_pipeline_witness :
    StartContainerHandler (.ok ⟨"1", "1", "1", "2222"⟩) wBuildFail =
      ([.queryCPU, .queryMem, .queryDisk, .writeDockerfile dockerfileText, .runBuild],
       .httpError 500 "exit status 1") :=
  C5_build_failure_stops_pipeline ⟨"1", "1", "1", "2222"⟩ wBuildFail
    4 1 1 1 8000000000 100000000000 "exit status 1"
    rfl rfl rfl rfl rfl rfl (by decide) rfl rfl

/-- A world identical to `wOk` except that `docker-compose up -d` exits
non-zero after writing diagnostics to its combined output buffer. -/
def wUpFail : World :=
  ⟨.ok 4, .ok 8000000000, .ok 100000000000, none, none, "", none,
   "ERROR: for debian-ssh  Cannot start service: port is already allocated", true⟩

/-- C6: the up invocation's combined stdout+stderr is captured into a
single buffer regardless of exit status (`World.upOutput` models exactly
its content), and on non-zero exit the handler responds 500 with exactly
that captured combined output as the body. -/
theorem C6_up_failure_500_with_output (req : StartContainerRequest) (w : World)
    (cc rc rm rs : Int) (ma da : Nat)
    (h1 : w.cpuRes = .ok cc) (h2 : w.memRes = .ok ma) (h3 : w.diskRes = .ok da)
    (hc : atoi? req.cpus = some rc) (hm : atoi? req.memory = some rm)
    (hs : atoi? req.storage = some rs)
    (hadm : admissionReject rc rm rs cc ma da = false)
    (hdf : w.dockerfileErr = none) (hb : w.buildErr = none)
    (hcw : w.composeWriteErr = none) (hup : w.upFails = true) :
    StartContainerHandler (.ok req) w =
      ([.queryCPU, .queryMem, .queryDisk, .writeDockerfile dockerfileText, .runBuild,
        .writeCompose (composeText req.cpus req.memory req.storage req.port), .runUp],
       .httpError 500 w.upOutput) := by
  simp [StartContainerHandler, h1, h2, h3, hc, hm, hs, hadm, hdf, hb, hcw, hup]

/-- Witness for C6 at a concrete admitted request in `wUpFail`. -/
theorem C6_up_failure_500_with_output_witness :
    StartContainerHandler (.ok ⟨"2", "512", "1024", "2222"⟩) wUpFail =
      ([.queryCPU, .queryMem, .queryDisk, .writeDockerfile dockerfileText, .runBuild,
        .writeCompose (composeText "2" "512" "1024" "2222"), .runUp],
       .httpError 500 wUpFail.upOutput) :=
  C6_up_failure_500_with_output ⟨"2", "512", "1024", "2222"⟩ wUpFail
    4 2 512 1024 8000000000 100000000000
    rfl rfl rfl rfl rfl rfl (by decide) rfl rfl rfl rfl

/-- The rendered compose text contains the cpus value, the memory and
storage values with their "M" suffix, and the port mapping, all verbatim
at their template positions. -/
theorem composeText_containsSub (c m s p : String) :
    containsSub (composeText c m s p) ("cpus: \"" ++ c ++ "\"") ∧
    containsSub (composeText c m s p) ("memory: \"" ++ m ++ "M\"") ∧
    containsSub (composeText c m s p) ("size: \"" ++ s ++ "M\"") ∧
    containsSub (composeText c m s p) (p ++ ":22") ∧
    containsSub (composeText c m s p) ("\"" ++ p ++ ":22" ++ "\"") := by
  refine ⟨⟨composeP1,
      composeP2 ++ "memory: \"" ++ m ++ "M\"" ++ composeP3 ++ "\"" ++ p ++ ":22" ++ "\"" ++
        composeP4 ++ "size: \"" ++ s ++ "M\"" ++ "\n", ?_⟩,
    ⟨composeP1 ++ "cpus: \"" ++ c ++ "\"" ++ composeP2,
      composeP3 ++ "\"" ++ p ++ ":22" ++ "\"" ++ composeP4 ++ "size: \"" ++ s ++ "M\"" ++ "\n",
      ?_⟩,
    ⟨composeP1 ++ "cpus: \"" ++ c ++ "\"" ++ composeP2 ++ "memory: \"" ++ m ++ "M\"" ++
        composeP3 ++ "\"" ++ p ++ ":22" ++ "\"" ++ composeP4,
      "\n", ?_⟩,
    ⟨composeP1 ++ "cpus: \"" ++ c ++ "\"" ++ composeP2 ++ "memory: \"" ++ m ++ "M\"" ++
        composeP3 ++ "\"",
      "\"" ++ composeP4 ++ "size: \"" ++ s ++ "M\"" ++ "\n", ?_⟩,
    ⟨composeP1 ++ "cpus: \"" ++ c ++ "\"" ++ composeP2 ++ "memory: \"" ++ m ++ "M\"" ++
        composeP3,
      composeP4 ++ "size: \"" ++ s ++ "M\"" ++ "\n", ?_⟩⟩ <;>
    (simp only [composeText, String.append_assoc]; try rfl)

/-- C7: compose rendering is a pure, deterministic function of the request
(equal requests give byte-identical text); for every request the text
contains the cpus value, the memory value with "M" suffix, the storage
value with "M" suffix, and the "<port>:22" mapping verbatim; and at the
spec's example request {cpus:2, memory:512, storage:1024, port:"2222"} it
contains `cpus: "2"`, `memory: "512M"`, `size: "1024M"`, and `"2222:22"`. -/
theorem C7_compose_pure_and_verbatim :
    (∀ r₁ r₂ : StartContainerRequest, r₁ = r₂ →
        composeText r₁.cpus r₁.memory r₁.storage r₁.port =
          composeText r₂.cpus r₂.memory r₂.storage r₂.port) ∧
    (∀ c m s p : String,
        containsSub (composeText c m s p) ("cpus: \"" ++ c ++ "\"") ∧
        containsSub (composeText c m s p) ("memory: \"" ++ m ++ "M\"") ∧
        containsSub (composeText c m s p) ("size: \"" ++ s ++ "M\"") ∧
        containsSub (composeText c m s p) (p ++ ":22")) ∧
    (containsSub (composeText "2" "512" "1024" "2222") "cpus: \"2\"" ∧
     containsSub (composeText "2" "512" "1024" "2222") "memory: \"512M\"" ∧
     containsSub (composeText "2" "512" "1024" "2222") "size: \"1024M\"" ∧
     containsSub (composeText "2" "512" "1024" "2222") "\"2222:22\"") := by
  refine ⟨fun r₁ r₂ h => by rw [h], fun c m s p => ?_, ?_⟩
  · obtain ⟨hcpu, hmem, hsize, hport, -⟩ := composeText_containsSub c m s p
    exact ⟨hcpu, hmem, hsize, hport⟩
  · obtain ⟨hcpu, hmem, hsize, -, hportq⟩ := composeText_containsSub "2" "512" "1024" "2222"
    exact ⟨hcpu, hmem, hsize, hportq⟩

/-- Witness for C7's determinism conjunct at the spec's example request. -/
theorem C7_compose_pure_and_verbatim_witness :
    composeText "2" "512" "1024" "2222" = composeText "2" "512" "1024" "2222" :=
  C7_compose_pure_and_verbatim.1 ⟨"2", "512", "1024", "2222"⟩ ⟨"2", "512", "1024", "2222"⟩ rfl

/-- C8: a request that passes every step yields the JSON success envelope
with Content-Type application/json, status "success", exactly the up
step's combined output as `docker_compose_output`, the connection command
"ssh root@localhost -p <port>" embedding the requested host port, and the
fixed hardcoded credential "password". -/
theorem C8_success_envelope (req : StartContainerRequest) (w : World)
    (cc rc rm rs : Int) (ma da : Nat)
    (h1 : w.cpuRes = .ok cc) (h2 : w.memRes = .ok ma) (h3 : w.diskRes = .ok da)
    (hc : atoi? req.cpus = some rc) (hm : atoi? req.memory = some rm)
    (hs : atoi? req.storage = some rs)
    (hadm : admissionReject rc rm rs cc ma da = false)
    (hdf : w.dockerfileErr = none) (hb : w.buildErr = none)
    (hcw : w.composeWriteErr = none) (hup : w.upFails = false) :
    StartContainerHandler (.ok req) w =
      ([.queryCPU, .queryMem, .queryDisk, .writeDockerfile dockerfileText, .runBuild,
        .writeCompose (composeText req.cpus req.memory req.storage req.port), .runUp],
       .jsonSuccess "application/json" "success" w.upOutput
         ("ssh root@localhost -p " ++ req.port) "password") := by
  simp [StartContainerHandler, h1, h2, h3, hc, hm, hs, hadm, hdf, hb, hcw, hup]

/-- Witness for C8 at the spec's accept example in the all-ok world. -/
theorem C8_success_envelope_witness :
    StartContainerHandler (.ok ⟨"2", "512", "1024", "2222"⟩) wOk =
      ([.queryCPU, .queryMem, .queryDisk, .writeDockerfile dockerfileText, .runBuild,
        .writeCompose (composeText "2" "512" "1024" "2222"), .runUp],
       .jsonSuccess "application/json" "success" wOk.upOutput
         ("ssh root@localhost -p " ++ "2222") "password") :=
  C8_success_envelope ⟨"2", "512", "1024", "2222"⟩ wOk 4 2 512 1024 8000000000 100000000000
    rfl rfl rfl rfl rfl rfl (by decide) rfl rfl rfl rfl

/-- C10: the port field is never parsed or validated: the HTTP status of
the handler is identical for any two port strings (so no port value can by
itself cause a 400 — or any other status change), the port string is
substituted verbatim into the compose descriptor's "<port>:22" mapping,
and whenever the handler succeeds the `ssh_url` embeds the port string
verbatim. -/
theorem C10_port_never_validated :
    (∀ c m s p q : String, ∀ w : World,
        statusOf (StartContainerHandler (.ok ⟨c, m, s, p⟩) w).2 =
          statusOf (StartContainerHandler (.ok ⟨c, m, s, q⟩) w).2) ∧
    (∀ c m s p : String, containsSub (composeText c m s p) (p ++ ":22")) ∧
    (∀ c m s p : String, ∀ w : World,
        sshUrlOf (StartContainerHandler (.ok ⟨c, m, s, p⟩) w).2 = none ∨
        sshUrlOf (StartContainerHandler (.ok ⟨c, m, s, p⟩) w).2 =
          some ("ssh root@localhost -p " ++ p)) := by
  refine ⟨?_, ?_, ?_⟩
  · intro c m s p q w
    rcases h1 : w.cpuRes with e | cc
    · simp [StartContainerHandler, h1, statusOf]
    rcases h2 : w.memRes with e | ma
    · simp [StartContainerHandler, h1, h2, statusOf]
    rcases h3 : w.diskRes with e | da
    · simp [StartContainerHandler, h1, h2, h3, statusOf]
    rcases hc : atoi? c with _ | rc
    · simp [StartContainerHandler, h1, h2, h3, hc, statusOf]
    rcases hm : atoi? m with _ | rm
    · simp [StartContainerHandler, h1, h2, h3, hc, hm, statusOf]
    rcases hs : atoi? s with _ | rs
    · simp [StartContainerHandler, h1, h2, h3, hc, hm, hs, statusOf]
    by_cases hadm : admissionReject rc rm rs cc ma da = true
    · simp [StartContainerHandler, h1, h2, h3, hc, hm, hs, hadm, statusOf]
    rw [Bool.not_eq_true] at hadm
    rcases hdf : w.dockerfileErr with _ | e
    · rcases hb : w.buildErr with _ | e
      · rcases hcw : w.composeWriteErr with _ | e
        · cases hup : w.upFails <;>
            simp [StartContainerHandler, h1, h2, h3, hc, hm, hs, hadm, hdf, hb, hcw, hup,
              statusOf]
        · simp [StartContainerHandler, h1, h2, h3, hc, hm, hs, hadm, hdf, hb, hcw, statusOf]
      · simp [StartContainerHandler, h1, h2, h3, hc, hm, hs, hadm, hdf, hb, statusOf]
    · simp [StartContainerHandler, h1, h2, h3, hc, hm, hs, hadm, hdf, statusOf]
  · intro c m s p
    exact (composeText_containsSub c m s p).2.2.2.1
  · intro c m s p w
    rcases h1 : w.cpuRes with e | cc
    · simp [StartContainerHandler, h1, sshUrlOf]
    rcases h2 : w.memRes with e | ma
    · simp [StartContainerHandler, h1, h2, sshUrlOf]
    rcases h3 : w.diskRes with e | da
    · simp [StartContainerHandler, h1, h2, h3, sshUrlOf]
    rcases hc : atoi? c with _ | rc
    · simp [StartContainerHandler, h1, h2, h3, hc, sshUrlOf]
    rcases hm : atoi? m with _ | rm
    · simp [StartContainerHandler, h1, h2, h3, hc, hm, sshUrlOf]
    rcases hs : atoi? s with _ | rs
    · simp [StartContainerHandler, h1, h2, h3, hc, hm, hs, sshUrlOf]
    by_cases hadm : admissionReject rc rm rs cc ma da = true
    · simp [StartContainerHandler, h1, h2, h3, hc, hm, hs, hadm, sshUrlOf]
    rw [Bool.not_eq_true] at hadm
    rcases hdf : w.dockerfileErr with _ | e
    · rcases hb : w.buildErr with _ | e
      · rcases hcw : w.composeWriteErr with _ | e
        · cases hup : w.upFails <;>
            simp [StartContainerHandler, h1, h2, h3, hc, hm, hs, hadm, hdf, hb, hcw, hup,
              sshUrlOf]
        · simp [StartContainerHandler, h1, h2, h3, hc, hm, hs, hadm, hdf, hb, hcw, sshUrlOf]
      · simp [StartContainerHandler, h1, h2, h3, hc, hm, hs, hadm, hdf, hb, sshUrlOf]
    · simp [StartContainerHandler, h1, h2, h3, hc, hm, hs, hadm, hdf, sshUrlOf]
